import Mathlib

/-!
Verification of the query-time pipeline of the Jyotir Brahmana Vedanta Q&A
API (`src/app.py`, handler `ask_vedanta`).

The embedding models, character for character, the pure parts of the
handler:

* the per-unit reference derivation `f"Class {class_num} – {title}"` with
  the `payload.get` sentinel defaults;
* the context assembly `"\n\n---\n\n".join(...)` over
  `f"[{ref}]\n{content}"` blocks;
* the prompt f-string;
* the citation sanitizer
  `re.sub(r"\(Ref:\s*(?!(REFS))Class\s*\d+[^)]*\)", "", raw)` followed by
  `re.sub(r"\s+\(\s*\)", "", ...)` and `.strip()`, where `REFS` is the
  `|`-join of the `re.escape`d whitelist entries;
* the control flow: empty-retrieval fallback, response shaping, and the
  top-level `except` that converts any collaborator exception into an
  HTTP 500 with the exception message as detail.

The two `re.sub` calls are embedded as left-to-right scanners.  Both
patterns are deterministic once backtracking is analysed: every backtrack
of a greedy `\s*`/`\s+`/`\d+` leaves the next mandatory literal facing a
character it cannot match, so a match attempt at a position succeeds in
exactly one way.  The scanner tries every position (leftmost semantics)
and resumes after the end of each match, exactly as `re.sub` does.
`\s` and `\d` are modelled at their ASCII core, which covers every string
the service manipulates.  One genuine quirk of the source is preserved:
with an empty whitelist the lookahead group is empty, `(?!())` always
fails, and the first `re.sub` deletes nothing.
-/

namespace JyotirApp

/-- ASCII core of Python's `\s` (and of `str.strip`'s default set). -/
def pySpace (c : Char) : Bool :=
  c = ' ' || c = '\t' || c = '\n' || c = '\r' || c = '\x0b' || c = '\x0c'

/-- ASCII core of Python's `\d`. -/
def pyDigit (c : Char) : Bool :=
  '0' ≤ c && c ≤ '9'

/-- Literal-list prefix test. -/
def isPrefixL : List Char → List Char → Bool
  | [], _ => true
  | _ :: _, [] => false
  | a :: as, b :: bs => a = b && isPrefixL as bs

/-- The literal `(Ref:` that opens a citation parenthetical. -/
def refColonOpen : List Char := ['(', 'R', 'e', 'f', ':']

/-- The literal `Class` required after the lookahead. -/
def classWord : List Char := ['C', 'l', 'a', 's', 's']

/-- The negative-lookahead body `(?!(R1|R2|...))` at a position: some
whitelist entry is a literal prefix of the rest of the text.  With an
empty whitelist the joined pattern is the empty alternation `(?!())`,
which always matches, so the lookahead body is taken to hit. -/
def altHit (refs : List String) (s : List Char) : Bool :=
  refs.isEmpty || refs.any (fun r => isPrefixL r.data s)

/-- Length of the match of `\(Ref:\s*(?!(REFS))Class\s*\d+[^)]*\)` at the
start of `s`, if any.  Backtracking the greedy `\s*`s cannot help: a
shorter whitespace run leaves `Class` (resp. `\d`) facing a whitespace
character, so the only viable attempt reads the full runs; `[^)]*\)` ends
the match at the first `)` after the digits. -/
def matchLen (refs : List String) (s : List Char) : Option Nat :=
  if isPrefixL refColonOpen s then
    let s1 := s.drop 5
    let ws1 := (s1.takeWhile pySpace).length
    let s2 := s1.drop ws1
    if altHit refs s2 then none
    else if isPrefixL classWord s2 then
      let s3 := s2.drop 5
      let ws2 := (s3.takeWhile pySpace).length
      let s4 := s3.drop ws2
      let ds := (s4.takeWhile pyDigit).length
      if ds = 0 then none
      else
        let s5 := s4.drop ds
        let body := (s5.takeWhile (fun c => c ≠ ')')).length
        match s5.drop body with
        | ')' :: _ => some (5 + ws1 + 5 + ws2 + ds + body + 1)
        | _ => none
    else none
  else none

/-- `re.sub(citation_pattern, "", ·)` as a fuelled left-to-right scan;
fuel `s.length` always suffices since a match consumes at least one
character. -/
def scrubRefsF (refs : List String) : Nat → List Char → List Char
  | _, [] => []
  | 0, s => s
  | fuel + 1, c :: cs =>
    match matchLen refs (c :: cs) with
    | some n => scrubRefsF refs fuel (cs.drop (n - 1))
    | none => c :: scrubRefsF refs fuel cs

/-- Length of the match of `\s+\(\s*\)` at the start of `s`, if any.
Again the greedy runs are forced: backtracking faces `(` or `)` against a
whitespace character. -/
def emptyParenLen (s : List Char) : Option Nat :=
  let ws1 := (s.takeWhile pySpace).length
  if ws1 = 0 then none
  else
    match s.drop ws1 with
    | '(' :: s2 =>
      let ws2 := (s2.takeWhile pySpace).length
      match s2.drop ws2 with
      | ')' :: _ => some (ws1 + 1 + ws2 + 1)
      | _ => none
    | _ => none

/-- `re.sub(r"\s+\(\s*\)", "", ·)` as a fuelled left-to-right scan. -/
def scrubParensF : Nat → List Char → List Char
  | _, [] => []
  | 0, s => s
  | fuel + 1, c :: cs =>
    match emptyParenLen (c :: cs) with
    | some n => scrubParensF fuel (cs.drop (n - 1))
    | none => c :: scrubParensF fuel cs

/-- Python `str.strip()`. -/
def pyStrip (l : List Char) : List Char :=
  ((l.dropWhile pySpace).reverse.dropWhile pySpace).reverse

/-- `str.strip()` at the `String` level (used on the LLM message content
before sanitization, mirroring `completion.choices[0].message.content.strip()`). -/
def pyStripS (s : String) : String :=
  ⟨pyStrip s.data⟩

/-- The Citation Validator of `ask_vedanta` Step 6: delete non-whitelisted
`(Ref: Class <digits> ...)` parentheticals, delete `\s+\(\s*\)` artifacts,
then strip. -/
def validate (refs : List String) (text : String) : String :=
  ⟨pyStrip (scrubParensF (scrubRefsF refs text.data.length text.data).length
    (scrubRefsF refs text.data.length text.data))⟩

/-- Python `sep.join(l)`. -/
def pyJoin (sep : String) : List String → String
  | [] => ""
  | [x] => x
  | x :: y :: t => x ++ sep ++ pyJoin sep (y :: t)

/-- The payload of a retrieved point: the fields `ask_vedanta` reads via
`payload.get`, each possibly absent. -/
structure Payload where
  title : Option String
  class_num : Option String
  content : Option String
deriving DecidableEq

/-- `ref = f"Class {class_num} – {title}"` with the `payload.get`
defaults `"Unknown Source"` / `"Unknown"`. -/
def mkRef (p : Payload) : String :=
  "Class " ++ p.class_num.getD "Unknown" ++ " – " ++ p.title.getD "Unknown Source"

/-- One context block `f"[{ref}]\n{content}"` (content defaults to `""`). -/
def contextPart (p : Payload) : String :=
  "[" ++ mkRef p ++ "]\n" ++ p.content.getD ""

/-- `context = "\n\n---\n\n".join(context_parts)`. -/
def contextOf (units : List Payload) : String :=
  pyJoin "\n\n---\n\n" (units.map contextPart)

/-- `valid_refs`, one reference per retrieved unit, in retrieval order. -/
def valid_refs_of (units : List Payload) : List String :=
  units.map mkRef

/-- Prompt f-string, up to the interpolated question. -/
def promptHead : String :=
  "\nYou are a Vedānta teacher analyzing the Bṛhadāraṇyaka Upaniṣad — Jyotir Brāhmaṇa teachings of Swami Paramananda Giri.\n\nQuestion:\n"

/-- Prompt f-string, between the question and the joined references. -/
def promptMid : String :=
  "\n\nBelow are verified lecture extracts. Speak **only** from these sources.\nWhen you cite, use only these verified references:\n"

/-- Prompt f-string, between the joined references and the context. -/
def promptRules : String :=
  "\n\n⚖️ Disciplinary Rules:\n1. Do not invent class numbers, titles, or teachings not present.  \n2. Speak only from retrieved material; if not found, say so.  \n3. When a Sanskrit śabda (e.g. eva, **jyotiḥ**, ātman, prāṇa, sākṣin, upādhi) appears, **highlight and explain it**.  \n4. Be clear, reflective, faithful to śruti.\n\nRetrieved materials:\n"

/-- Prompt f-string, after the interpolated context. -/
def promptTail : String :=
  "\n\nNow write a concise, integrated explanation with śabda-pivot awareness.\n"

/-- Step 4 – the composed prompt. -/
def promptOf (q : String) (units : List Payload) : String :=
  promptHead ++ q ++ promptMid ++ pyJoin ", " (valid_refs_of units) ++
    promptRules ++ contextOf units ++ promptTail

/-- Observable outcome of one `POST /ask` request. -/
inductive AskResponse where
  | fallback (answer : String)
  | ok (question answer : String) (sources_used : List String)
  | httpError (status : Nat) (detail : String)
deriving DecidableEq

/-- The `ask_vedanta` handler over its external collaborators: the
embedding call outcome, the Qdrant `query_points` outcome (its `.points`
payloads), and the LLM call as a function of the prompt.  An `Except.error`
models an exception reaching the top-level `except`, which re-raises as
`HTTPException(status_code=500, detail=str(e))`. -/
def ask_vedanta (q : String) (embedR : Except String Unit)
    (searchR : Except String (List Payload))
    (gen : String → Except String String) : AskResponse :=
  match embedR with
  | .error e => .httpError 500 e
  | .ok _ =>
    match searchR with
    | .error e => .httpError 500 e
    | .ok results =>
      if results.isEmpty then
        .fallback "No relevant teachings found in the Qdrant collection."
      else
        match gen (promptOf q results) with
        | .error e => .httpError 500 e
        | .ok content =>
          let raw_answer := pyStripS content
          let cleaned_answer := validate (valid_refs_of results) raw_answer
          .ok q cleaned_answer (valid_refs_of results)

/-- `(\(\s*\))` occurrence test: an empty-parenthesis artifact remains. -/
def hasEmptyParens : List Char → Bool
  | [] => false
  | c :: cs =>
    if c = '(' then
      match cs.dropWhile pySpace with
      | ')' :: _ => true
      | _ => hasEmptyParens cs
    else hasEmptyParens cs

/-- Two consecutive whitespace characters occur. -/
def hasDoubleSpace : List Char → Bool
  | a :: b :: t => (pySpace a && pySpace b) || hasDoubleSpace (b :: t)
  | _ => false

/-! ## Helper lemmas -/

theorem scrubRefsF_sublist (refs : List String) :
    ∀ fuel s, List.Sublist (scrubRefsF refs fuel s) s := by
  intro fuel
  induction fuel with
  | zero =>
    intro s
    cases s <;> simp [scrubRefsF]
  | succ fuel ih =>
    intro s
    cases s with
    | nil => simp [scrubRefsF]
    | cons c cs =>
      simp only [scrubRefsF]
      split
      · exact ((ih _).trans (List.drop_sublist _ cs)).trans (List.sublist_cons_self c cs)
      · exact List.Sublist.cons₂ c (ih cs)

theorem scrubParensF_sublist :
    ∀ fuel s, List.Sublist (scrubParensF fuel s) s := by
  intro fuel
  induction fuel with
  | zero =>
    intro s
    cases s <;> simp [scrubParensF]
  | succ fuel ih =>
    intro s
    cases s with
    | nil => simp [scrubParensF]
    | cons c cs =>
      simp only [scrubParensF]
      split
      · exact ((ih _).trans (List.drop_sublist _ cs)).trans (List.sublist_cons_self c cs)
      · exact List.Sublist.cons₂ c (ih cs)

theorem pyStrip_sublist (l : List Char) : List.Sublist (pyStrip l) l := by
  have h2 : List.Sublist ((l.dropWhile pySpace).reverse.dropWhile pySpace).reverse
      (l.dropWhile pySpace).reverse.reverse :=
    List.Sublist.reverse (List.dropWhile_sublist pySpace)
  rw [List.reverse_reverse] at h2
  exact h2.trans (List.dropWhile_sublist pySpace)

theorem validate_sublist (refs : List String) (text : String) :
    List.Sublist (validate refs text).data text.data :=
  (pyStrip_sublist _).trans
    ((scrubParensF_sublist _ _).trans (scrubRefsF_sublist refs _ _))

theorem pyJoin_mem (sep r : String) :
    ∀ l : List String, r ∈ l → ∃ a b : String, pyJoin sep l = a ++ r ++ b := by
  intro l
  induction l with
  | nil =>
    intro h
    exact absurd h (List.not_mem_nil r)
  | cons x xs ih =>
    intro h
    cases xs with
    | nil =>
      have hx : r = x := by simpa using h
      subst hx
      exact ⟨"", "", by simp [pyJoin]⟩
    | cons y ys =>
      rcases List.mem_cons.mp h with hx | hmem
      · subst hx
        refine ⟨"", sep ++ pyJoin sep (y :: ys), ?_⟩
        simp [pyJoin, String.append_assoc]
      · rcases ih hmem with ⟨a, b, hab⟩
        refine ⟨x ++ sep ++ a, b, ?_⟩
        show x ++ sep ++ pyJoin sep (y :: ys) = x ++ sep ++ a ++ r ++ b
        rw [hab]
        simp [String.append_assoc]

/-! ## Claim theorems -/

/-- C1: the claim asserts whitelist soundness — after the Citation
Validator runs, every remaining `(Ref: Class <number> ...)` parenthetical
encloses an exact whitelist member, and a candidate that extends a
whitelist entry is stripped.  The code violates this: the negative
lookahead built from the whitelist accepts by *prefix*, so the
parenthetical `(Ref: Class 3 – Talk15)` survives sanitization against the
whitelist `["Class 3 – Talk1"]` even though `Class 3 – Talk15` is not a
member of the whitelist. -/
theorem extension_citation_survives_validator :
    validate ["Class 3 – Talk1"] "It persists (Ref: Class 3 – Talk15)." =
        "It persists " ++ "(Ref: Class 3 – Talk15)" ++ "." ∧
      "Class 3 – Talk15" ∉ (["Class 3 – Talk1"] : List String) := by
  refine ⟨by decide, by decide⟩

/-- C2 (counterexample): the Citation Validator is not idempotent.
Deleting the inner parenthetical of
`"(Ref:(Ref: Class 5 x) Class 6 y)"` splices the remaining text into a
new citation-shaped parenthetical, which only a second pass deletes. -/
theorem validator_not_idempotent :
    validate ["Class 3 – Talk1"]
        (validate ["Class 3 – Talk1"] "(Ref:(Ref: Class 5 x) Class 6 y)") ≠
      validate ["Class 3 – Talk1"] "(Ref:(Ref: Class 5 x) Class 6 y)" := by
  decide

/-- C2 (amended): applying the sanitization transform twice yields a
(possibly shorter) subsequence of applying it once — a second pass can
only delete further, never alter or add; exact idempotence fails. -/
theorem validator_twice_only_deletes_further (refs : List String)
    (text : String) :
    List.Sublist (validate refs (validate refs text)).data
      (validate refs text).data :=
  validate_sublist refs (validate refs text)

/-- C3: against the whitelist `["Class 3 – Talk1", "Class 4 – Talk2"]`,
sanitizing the scenario output removes the invented second parenthetical
entirely, retains the first verbatim, and leaves no empty-parenthesis
artifact and no doubled whitespace. -/
theorem sanitize_scenario_artifact_cleanup :
    validate ["Class 3 – Talk1", "Class 4 – Talk2"]
        "...the self is unchanging (Ref: Class 3 – Talk1) and distinct (Ref: Class 99 – Invented)." =
        "...the self is unchanging " ++ "(Ref: Class 3 – Talk1)" ++ " and distinct ." ∧
      hasEmptyParens
        "...the self is unchanging (Ref: Class 3 – Talk1) and distinct .".data = false ∧
      hasDoubleSpace
        "...the self is unchanging (Ref: Class 3 – Talk1) and distinct .".data = false := by
  refine ⟨by decide, by decide, by decide⟩

/-- C4: if the vector-store search returns zero units, the handler
answers with exactly the fixed fallback body (answer only, no question
and no sources_used), for every question and independently of the
generator, which is never called. -/
theorem empty_retrieval_fallback (q : String)
    (gen : String → Except String String) :
    ask_vedanta q (Except.ok ()) (Except.ok []) gen =
      AskResponse.fallback "No relevant teachings found in the Qdrant collection." :=
  rfl

/-- C5: on a non-empty retrieval result and a successful generation, the
response is built with `sources_used` equal, element for element and in
retrieval order, to the reference list derived from the retrieved units —
not re-sorted, not re-derived from the sanitized answer (which is computed
separately by `validate`), duplicates preserved by `List.map`. -/
theorem sources_used_order_exact (q raw : String) (units : List Payload)
    (gen : String → Except String String) (hne : units ≠ [])
    (hgen : gen (promptOf q units) = Except.ok raw) :
    ask_vedanta q (Except.ok ()) (Except.ok units) gen =
      AskResponse.ok q (validate (units.map mkRef) (pyStripS raw))
        (units.map mkRef) := by
  cases units with
  | nil => exact absurd rfl hne
  | cons u us => simp [ask_vedanta, hgen, valid_refs_of]

/-- C5 witness: two distinct retrieved units with identical payloads give
`sources_used` with the duplicate reference kept as two entries. -/
theorem sources_used_order_exact_witness :
    ask_vedanta "q" (Except.ok ())
        (Except.ok [⟨some "Talk1", some "3", some "c"⟩,
          ⟨some "Talk1", some "3", some "c"⟩])
        (fun _ => Except.ok "ans") =
      AskResponse.ok "q"
        (validate ["Class 3 – Talk1", "Class 3 – Talk1"] (pyStripS "ans"))
        ["Class 3 – Talk1", "Class 3 – Talk1"] := by
  have h := sources_used_order_exact "q" "ans"
    [⟨some "Talk1", some "3", some "c"⟩, ⟨some "Talk1", some "3", some "c"⟩]
    (fun _ => Except.ok "ans") (List.cons_ne_nil _ _) rfl
  exact h.trans (by decide)

/-- C6: every retrieved unit yields exactly one reference string
`"Class {class_num} – {title}"`, in retrieval order, and the context is
the `"\n\n---\n\n"`-join of blocks `"[{ref}]\n{content}"`; in particular
the two scenario units yield the whitelist
`["Class 3 – Talk1", "Class 4 – Talk2"]` in that order. -/
theorem reference_derivation_context_format :
    (∀ t n c, mkRef ⟨some t, some n, some c⟩ = "Class " ++ n ++ " – " ++ t) ∧
      valid_refs_of [⟨some "Talk1", some "3", some "c1"⟩,
          ⟨some "Talk2", some "4", some "c2"⟩] =
        ["Class 3 – Talk1", "Class 4 – Talk2"] ∧
      contextOf [⟨some "Talk1", some "3", some "c1"⟩,
          ⟨some "Talk2", some "4", some "c2"⟩] =
        "[Class 3 – Talk1]\nc1\n\n---\n\n[Class 4 – Talk2]\nc2" ∧
      ∀ units, contextOf units =
        pyJoin "\n\n---\n\n"
          (units.map fun u => "[" ++ mkRef u ++ "]\n" ++ u.content.getD "") := by
  refine ⟨fun t n c => rfl, by decide, by decide, fun units => rfl⟩

/-- C7: a retrieved unit lacking `title` or `class_num` (or both) still
yields the well-formed reference string with the sentinels
`"Unknown Source"` / `"Unknown"` substituted; the assembler never fails on
missing fields. -/
theorem missing_field_defaults :
    (∀ cn c, mkRef ⟨none, cn, c⟩ = mkRef ⟨some "Unknown Source", cn, c⟩) ∧
      (∀ t c, mkRef ⟨t, none, c⟩ = mkRef ⟨t, some "Unknown", c⟩) ∧
      (∀ n c, mkRef ⟨none, some n, c⟩ =
        "Class " ++ n ++ " – " ++ "Unknown Source") ∧
      (∀ t c, mkRef ⟨some t, none, c⟩ = "Class " ++ "Unknown" ++ " – " ++ t) ∧
      ∀ c, mkRef ⟨none, none, c⟩ = "Class Unknown – Unknown Source" :=
  ⟨fun _ _ => rfl, fun _ _ => rfl, fun _ _ => rfl, fun _ _ => rfl,
    fun _ => rfl⟩

/-- C8: any exception from an external collaborator — embedder, vector
store, or generator — is reported as the single generic service error:
HTTP status 500 carrying the exception message, with the same shape
regardless of which collaborator failed, no partial payload and no
retry. -/
theorem uniform_external_failure (q m : String) (embedR : Except String Unit)
    (searchR : Except String (List Payload))
    (gen : String → Except String String)
    (h : embedR = Except.error m ∨
      (embedR = Except.ok () ∧ searchR = Except.error m) ∨
      ∃ units, embedR = Except.ok () ∧ searchR = Except.ok units ∧
        units ≠ [] ∧ gen (promptOf q units) = Except.error m) :
    ask_vedanta q embedR searchR gen = AskResponse.httpError 500 m := by
  rcases h with h1 | ⟨h1, h2⟩ | ⟨units, h1, h2, h3, h4⟩
  · subst h1; rfl
  · subst h1; subst h2; rfl
  · subst h1
    subst h2
    cases units with
    | nil => exact absurd rfl h3
    | cons u us => simp [ask_vedanta, h4]

/-- C8 witness: a failing embedder yields the generic 500 with the
message as detail. -/
theorem uniform_external_failure_witness :
    ask_vedanta "q" (Except.error "boom") (Except.ok [])
        (fun _ => Except.ok "") =
      AskResponse.httpError 500 "boom" :=
  uniform_external_failure "q" "boom" _ _ _ (Or.inl rfl)

/-- C9: the composed prompt contains the original question verbatim as a
substring, contains the assembled context verbatim as a substring, and
contains every whitelist reference string; composition is the fixed
string template `promptOf`. -/
theorem prompt_embeds_verbatim (q : String) (units : List Payload) :
    (∃ a b : String, promptOf q units = a ++ q ++ b) ∧
      (∃ a b : String, promptOf q units = a ++ contextOf units ++ b) ∧
      ∀ r, r ∈ valid_refs_of units →
        ∃ a b : String, promptOf q units = a ++ r ++ b := by
  refine ⟨⟨promptHead, promptMid ++ pyJoin ", " (valid_refs_of units) ++
      promptRules ++ contextOf units ++ promptTail, ?_⟩,
    ⟨promptHead ++ q ++ promptMid ++ pyJoin ", " (valid_refs_of units) ++
      promptRules, promptTail, ?_⟩, ?_⟩
  · simp [promptOf, String.append_assoc]
  · simp [promptOf, String.append_assoc]
  · intro r hr
    rcases pyJoin_mem ", " r (valid_refs_of units) hr with ⟨a, b, hab⟩
    refine ⟨promptHead ++ q ++ promptMid ++ a,
      b ++ promptRules ++ contextOf units ++ promptTail, ?_⟩
    simp [promptOf, hab, String.append_assoc]

/-- C9 witness: for one concrete unit, the derived reference occurs
verbatim in the composed prompt. -/
theorem prompt_embeds_verbatim_witness :
    ∃ a b : String,
      promptOf "Q" [⟨some "Talk1", some "3", some "c"⟩] =
        a ++ "Class 3 – Talk1" ++ b :=
  (prompt_embeds_verbatim "Q" [⟨some "Talk1", some "3", some "c"⟩]).2.2
    "Class 3 – Talk1" (by decide)

/-- C10: the Citation Validator only deletes: for every whitelist and
every raw answer, the sanitized answer's characters form a subsequence of
the raw answer's characters, so nothing is introduced and the length
never grows. -/
theorem validator_only_deletes (refs : List String) (text : String) :
    List.Sublist (validate refs text).data text.data ∧
      (validate refs text).length ≤ text.length :=
  ⟨validate_sublist refs text, (validate_sublist refs text).length_le⟩

end JyotirApp
